import Mathlib

/-!
Shallow embedding of the KYC verification gateway (handlers, repositories,
configuration and models) and proofs about its cache-and-billing pipeline.

Conventions of the embedding:
* Python floats are modelled as rationals (`ℚ`).
* Python dict/attribute lookups that can fail are modelled with `Option`;
  a failed attribute access surfaces as `PyErr.attributeError`.
* A Python function that is invoked with a positional-argument list is
  modelled as a Lean function over `List String`; a call whose argument
  count does not match the parameter count yields `PyErr.typeError`,
  mirroring Python call semantics.
* Exceptions are modelled with `Except PyErr`.
* The document store's insert/update operations are treated as the external
  persistence collaborator and always succeed inside the pipeline; the
  schema (choices) validation declared on the `KYCValidationTransaction`
  model is embedded separately as `KYCValidationTransaction.validates`.
* Wall-clock time (`tat`) is kept abstract: the pipeline stores `0` for it,
  and `calculate_tat` is embedded as the subtraction of two clock readings.
-/

namespace Odin

/-- Python-level failure signals that can escape a handler.  `exn` stands for
an arbitrary exception raised by the provider call or response parsing. -/
inductive PyErr where
  | attributeError
  | typeError
  | insufficientCredits
  | validationError
  | exn (msg : String)
deriving DecidableEq

/-! ## dependencies/configuration.py -/

/-- Values of the `UserLedgerTransactionType` enum. -/
def userLedgerTransactionTypes : List String :=
  ["CREDIT", "KYC_PAN", "KYC_AADHAAR", "KYC_VOTER", "KYC_RC", "KYC_DL",
   "KYC_PASSPORT", "EV_EMPLOYMENT_LATEST", "EV_EMPLOYMENT_HISTORY",
   "KYB_GSTIN", "KYC_MOBILE_LOOKUP"]

/-- Embeds `UserLedgerTransactionType.has_value` (membership in the enum's
value map). -/
def has_value (v : String) : Bool :=
  userLedgerTransactionTypes.contains v

/-- The `ServicePricing` class attributes.  Their numeric values are loaded
from the environment, so the embedding keeps them as parameters. -/
structure ServicePricing where
  KYC_PAN_COST : ℚ
  KYC_AADHAAR_COST : ℚ
  KYC_VOTER_COST : ℚ
  KYC_RC_COST : ℚ
  KYC_DL_COST : ℚ
  KYC_PASSPORT_COST : ℚ
  EV_EMPLOYMENT_LATEST_COST : ℚ
  EV_EMPLOYMENT_HISTORY_COST : ℚ
  KYB_GSTIN_COST : ℚ
  MOBILE_LOOKUP_COST : ℚ

/-- Python attribute access `ServicePricing.<name>`: only the ten attributes
declared on the class exist; any other name raises `AttributeError`
(modelled by `none`). -/
def ServicePricing.attr (p : ServicePricing) (name : String) : Option ℚ :=
  if name = "KYC_PAN_COST" then some p.KYC_PAN_COST
  else if name = "KYC_AADHAAR_COST" then some p.KYC_AADHAAR_COST
  else if name = "KYC_VOTER_COST" then some p.KYC_VOTER_COST
  else if name = "KYC_RC_COST" then some p.KYC_RC_COST
  else if name = "KYC_DL_COST" then some p.KYC_DL_COST
  else if name = "KYC_PASSPORT_COST" then some p.KYC_PASSPORT_COST
  else if name = "EV_EMPLOYMENT_LATEST_COST" then some p.EV_EMPLOYMENT_LATEST_COST
  else if name = "EV_EMPLOYMENT_HISTORY_COST" then some p.EV_EMPLOYMENT_HISTORY_COST
  else if name = "KYB_GSTIN_COST" then some p.KYB_GSTIN_COST
  else if name = "MOBILE_LOOKUP_COST" then some p.MOBILE_LOOKUP_COST
  else none

/-- Embeds `ServicePricing.get_service_cost`: the static cost mapping with a
fail-open default of `0.0` for unknown service names. -/
def ServicePricing.get_service_cost (p : ServicePricing) (service_name : String) : ℚ :=
  if service_name = "KYC_PAN" then p.KYC_PAN_COST
  else if service_name = "KYC_AADHAAR" then p.KYC_AADHAAR_COST
  else if service_name = "KYC_VOTER" then p.KYC_VOTER_COST
  else if service_name = "KYC_RC" then p.KYC_RC_COST
  else if service_name = "KYC_DL" then p.KYC_DL_COST
  else if service_name = "KYC_PASSPORT" then p.KYC_PASSPORT_COST
  else if service_name = "EV_EMPLOYMENT_LATEST" then p.EV_EMPLOYMENT_LATEST_COST
  else if service_name = "EV_EMPLOYMENT_HISTORY" then p.EV_EMPLOYMENT_HISTORY_COST
  else if service_name = "KYB_GSTIN" then p.KYB_GSTIN_COST
  else if service_name = "KYC_MOBILE_LOOKUP" then p.MOBILE_LOOKUP_COST
  else 0

/-- Python attribute access on the `KYCServiceBillableStatus` class: the
eight billable-status lists declared in `dependencies/configuration.py`.
Any other attribute name (for example `EV_EMPLOYMENT_LATEST` or
`KYC_EMAIL_LOOKUP`, both referenced by handlers) raises `AttributeError`
(modelled by `none`). -/
def kycServiceBillableStatusAttr (name : String) : Option (List String) :=
  if name = "KYC_PAN" then some ["FOUND", "NOT_FOUND"]
  else if name = "KYC_RC" then some ["FOUND", "NOT_FOUND"]
  else if name = "KYC_VOTER" then some ["FOUND", "NOT_FOUND"]
  else if name = "KYC_DL" then some ["FOUND", "NOT_FOUND"]
  else if name = "KYC_PASSPORT" then some ["FOUND", "NOT_FOUND"]
  else if name = "KYC_AADHAAR" then some ["FOUND", "NOT_FOUND"]
  else if name = "KYC_MOBILE_LOOKUP" then some ["FOUND"]
  else if name = "KYB_GSTIN" then some ["FOUND", "NOT_FOUND"]
  else none

/-! ## Provider response bodies

A provider JSON body is modelled by its two fields the handlers actually
read (`status_code`, `message`) plus an opaque `tag` standing for the rest
of the payload.  A wholly absent/empty body is modelled as `none` at use
sites (`Option ProviderResp`). -/

/-- Parsed provider JSON body (the fields the handlers read, plus an opaque
remainder). -/
structure ProviderResp where
  status_code : Option Int := none
  message : Option String := none
  tag : String := ""
deriving DecidableEq

/-! ## Status classifiers (one per document-type handler) -/

namespace AadhaarHandler

/-- Embeds `AadhaarHandler.__determine_status`. -/
def determine_status (http_status_code response_status_code : Int) : String :=
  if http_status_code = 200 then
    if response_status_code = 100 then "FOUND"
    else if response_status_code = 101 then "FOUND"
    else if response_status_code = 102 then "NOT_FOUND"
    else "ERROR"
  else if http_status_code = 400 then "BAD_REQUEST"
  else if http_status_code = 503 then "SOURCE_DOWN"
  else "ERROR"

end AadhaarHandler

namespace VoterHandler

/-- Embeds `VoterHandler.__determine_status`.  Note: unlike the Aadhaar, DL
and Passport classifiers there is no branch for provider code 101. -/
def determine_status (http_status_code response_status_code : Int) : String :=
  if http_status_code = 200 then
    if response_status_code = 100 then "FOUND"
    else if response_status_code = 102 then "NOT_FOUND"
    else "ERROR"
  else if http_status_code = 400 then "BAD_REQUEST"
  else "ERROR"

end VoterHandler

namespace DLHandler

/-- Embeds `DLHandler.__determine_status`. -/
def determine_status (http_status_code response_status_code : Int) : String :=
  if http_status_code = 200 then
    if response_status_code = 100 then "FOUND"
    else if response_status_code = 101 then "FOUND"
    else if response_status_code = 102 then "NOT_FOUND"
    else "ERROR"
  else if http_status_code = 400 then "BAD_REQUEST"
  else "ERROR"

end DLHandler

namespace PassportHandler

/-- Embeds `PassportHandler.__determine_status`. -/
def determine_status (http_status_code response_status_code : Int) : String :=
  if http_status_code = 200 then
    if response_status_code = 100 then "FOUND"
    else if response_status_code = 101 then "FOUND"
    else if response_status_code = 102 then "NOT_FOUND"
    else "ERROR"
  else if http_status_code = 400 then "BAD_REQUEST"
  else "ERROR"

end PassportHandler

namespace EmploymentLatestHandler

/-- Embeds `EmploymentLatestHandler.__determine_status` (code 101 maps to
BAD_REQUEST for this provider). -/
def determine_status (http_status_code response_status_code : Int) : String :=
  if http_status_code = 200 then
    if response_status_code = 100 then "FOUND"
    else if response_status_code = 101 then "BAD_REQUEST"
    else if response_status_code = 102 then "NOT_FOUND"
    else "ERROR"
  else if http_status_code = 400 then "BAD_REQUEST"
  else "ERROR"

end EmploymentLatestHandler

namespace GSTINHandler

/-- Embeds `GSTINHandler.__determine_status` (HTTP status only). -/
def determine_status (http_status_code : Int) : String :=
  if http_status_code = 200 then "FOUND"
  else if http_status_code = 400 then "BAD_REQUEST"
  else if http_status_code = 404 then "NOT_FOUND"
  else if http_status_code = 429 then "TOO_MANY_REQUESTS"
  else if http_status_code = 503 then "SOURCE_DOWN"
  else "ERROR"

end GSTINHandler

namespace MobileLookupHandler

/-- Embeds `MobileLookupHandler.__determine_status` (HTTP status only). -/
def determine_status (http_status_code : Int) : String :=
  if http_status_code = 200 then "FOUND"
  else if http_status_code = 206 then "PARTIAL_CONTENT"
  else if http_status_code = 400 then "BAD_REQUEST"
  else if http_status_code = 429 then "TOO_MANY_REQUESTS"
  else if http_status_code = 503 then "SOURCE_DOWN"
  else "ERROR"

end MobileLookupHandler

namespace EmailLookupHandler

/-- Embeds `EmailLookupHandler.__determine_status` (HTTP status only). -/
def determine_status (http_status_code : Int) : String :=
  if http_status_code = 200 then "FOUND"
  else if http_status_code = 206 then "PARTIAL_CONTENT"
  else if http_status_code = 400 then "BAD_REQUEST"
  else if http_status_code = 429 then "TOO_MANY_REQUESTS"
  else if http_status_code = 503 then "SOURCE_DOWN"
  else "ERROR"

end EmailLookupHandler

namespace RCHandler

/-- Embeds `RCHandler._determine_status` (HTTP status only; 206 maps to
NOT_FOUND for this provider). -/
def determine_status (http_status_code : Int) : String :=
  if http_status_code = 200 then "FOUND"
  else if http_status_code = 206 then "NOT_FOUND"
  else if http_status_code = 400 then "BAD_REQUEST"
  else if http_status_code = 429 then "TOO_MANY_REQUESTS"
  else "ERROR"

end RCHandler

namespace PanHandler

/-- Embeds `PanHandler._determine_status`.  The provider body is consulted
first (when truthy, i.e. a non-empty dict, modelled as `some`): codes 100
and 101 map to FOUND and 102 to NOT_FOUND irrespective of the HTTP status;
otherwise the HTTP status decides, with 200 mapping to FOUND. -/
def determine_status (http_status_code : Int) (external_response : Option ProviderResp) : String :=
  match external_response with
  | some r =>
    if r.status_code = some 100 ∨ r.status_code = some 101 then "FOUND"
    else if r.status_code = some 102 then "NOT_FOUND"
    else if http_status_code = 200 then "FOUND"
    else if http_status_code = 400 then "BAD_REQUEST"
    else "ERROR"
  | none =>
    if http_status_code = 200 then "FOUND"
    else if http_status_code = 400 then "BAD_REQUEST"
    else "ERROR"

end PanHandler

/-! ## Ledger: models/user_ledger_transaction_model.py,
repositories/user_ledger_transaction_repository.py,
repositories/user_repository.py,
handlers/user_ledger_transaction_handler.py -/

/-- Embeds the `UserLedgerTransaction` document. -/
structure UserLedgerTransaction where
  user_id : String
  type : String
  amount : ℚ
  description : String
  balance : ℚ
deriving DecidableEq

/-- The mutable state the ledger code touches: each user's `credits` field
(an association list keyed by user id) and the ledger collection,
newest-first (the repository reads it ordered by descending creation
time). -/
structure LedgerState where
  credits : List (String × ℚ)
  txns : List UserLedgerTransaction
deriving DecidableEq

/-- Embeds `UserRepository.get_user_by_id(user_id).credits`: `none` when the
user record does not exist. -/
def LedgerState.getCredits (st : LedgerState) (user_id : String) : Option ℚ :=
  (st.credits.find? (fun p => p.1 = user_id)).map (fun p => p.2)

/-- Writes a user's `credits` field (the `user.save()` in
`UserRepository.update_user_credits`). -/
def LedgerState.setCredits (st : LedgerState) (user_id : String) (v : ℚ) : LedgerState :=
  { st with credits := st.credits.map (fun p => if p.1 = user_id then (p.1, v) else p) }

/-- Newest ledger transaction for a user (first match in the newest-first
collection). -/
def LedgerState.latestTxnFor (st : LedgerState) (user_id : String) : Option UserLedgerTransaction :=
  st.txns.find? (fun t => t.user_id = user_id)

/-- Embeds `UserLedgerTransactionRepository.insert_ledger_txn_for_user`:
read the user's current credits, add the signed amount, store the result as
the new transaction's `balance`, then mirror that balance onto
`User.credits` via `update_user_credits`.  A missing user record makes
`get_user_by_id` return `None` and the subsequent `.credits` access raise
(re-raised by the repository). -/
def insert_ledger_txn_for_user (st : LedgerState) (user_id type : String)
    (amount : ℚ) (description : String) :
    Except PyErr (LedgerState × UserLedgerTransaction) :=
  match st.getCredits user_id with
  | none => .error .attributeError
  | some current_balance =>
    let new_balance := current_balance + amount
    let new_txn : UserLedgerTransaction :=
      { user_id := user_id, type := type, amount := amount,
        description := description, balance := new_balance }
    let st1 : LedgerState := { st with txns := new_txn :: st.txns }
    let st2 := st1.setCredits user_id new_txn.balance
    .ok (st2, new_txn)

/-- Embeds `UserLedgerTransactionHandler.check_if_eligible`.  The body is
wrapped in a catch-all `except` returning `False`, so the function is total:
an invalid service name or a failing user lookup yields `false`, otherwise
the comparison `credits >= required_credits`. -/
def check_if_eligible (p : ServicePricing) (st : LedgerState)
    (user_id service_name : String) : Bool :=
  if ¬ has_value service_name then false
  else
    match st.getCredits user_id with
    | none => false
    | some current_balance => current_balance ≥ p.get_service_cost service_name

/-- Embeds `UserLedgerTransactionHandler.deduct_credits`, called with a list
of positional arguments as at its call sites.  The Python definition has
exactly two parameters besides `self` (`user_id`, `service_name`), so any
other argument count raises `TypeError` at the call.  Inside the body a
catch-all `except` converts failures into `None`. -/
def deduct_credits (p : ServicePricing) (st : LedgerState) (args : List String) :
    Except PyErr (LedgerState × Option UserLedgerTransaction) :=
  match args with
  | [user_id, service_name] =>
    if ¬ has_value service_name then .ok (st, none)
    else
      let amount := p.get_service_cost service_name
      match insert_ledger_txn_for_user st user_id service_name (-amount)
          ("Credit deduction for " ++ service_name) with
      | .ok (st2, new_txn) => .ok (st2, some new_txn)
      | .error _ => .ok (st, none)
  | _ => .error .typeError

/-- Embeds `UserLedgerTransactionHandler.increase_credits` (a two-positional
call into the same two-parameter signature is well-formed, so this one is a
plain function). -/
def increase_credits (st : LedgerState) (user_id : String) (amount : ℚ) :
    Except PyErr (LedgerState × UserLedgerTransaction) :=
  insert_ledger_txn_for_user st user_id "CREDIT" amount "Credits Purchased"

/-- A sequential ledger operation: one `insert_ledger_txn_for_user` call
(deduction or credit purchase) with its arguments. -/
structure LedgerOp where
  user_id : String
  type : String
  amount : ℚ
  description : String

/-- Runs a list of ledger operations sequentially, propagating any
failure. -/
def applyLedgerOps (st : LedgerState) : List LedgerOp → Except PyErr LedgerState
  | [] => .ok st
  | op :: ops =>
    match insert_ledger_txn_for_user st op.user_id op.type op.amount op.description with
    | .error e => .error e
    | .ok (st2, _) => applyLedgerOps st2 ops

/-- The balance-consistency invariant: for every user, the newest ledger
transaction's `balance` equals the user's current `credits`. -/
def LedgerInvariant (st : LedgerState) : Prop :=
  ∀ user_id t, st.latestTxnFor user_id = some t →
    st.getCredits user_id = some t.balance

/-! ## Verification transactions: models/kyc_model.py and
repositories/kyc_repository.py -/

/-- The `kyc_transaction_details` dict: the normalized input fields used as
the cache lookup key.  Absent keys are `none`. -/
structure TxnDetails where
  pan : Option String := none
  reg_no : Option String := none
  epic_no : Option String := none
  dl_no : Option String := none
  file_number : Option String := none
  aadhaar : Option String := none
  mobile : Option String := none
  gstin : Option String := none
  email : Option String := none
  uan : Option String := none
  dob : Option String := none
  employer_name : Option String := none
  employee_name : Option String := none
  name : Option String := none
deriving DecidableEq

/-- Embeds the `KYCValidationTransaction` document.  `kyc_provider_response`
is `none` while the dict is empty/unset (Python falsy). -/
structure KYCTxn where
  user_id : String := ""
  api_name : String := ""
  provider_name : String := ""
  is_cached : Bool := false
  tat : ℚ := 0
  http_status_code : Int := 0
  status : String := ""
  message : Option String := none
  kyc_transaction_details : TxnDetails := {}
  kyc_provider_request : TxnDetails := {}
  kyc_provider_response : Option ProviderResp := none
deriving DecidableEq

/-- The `choices` list declared on the model's `api_name` field. -/
def kycApiNameChoices : List String := ["PAN", "RC_V1"]

/-- The `choices` list declared on the model's `provider_name` field. -/
def kycProviderNameChoices : List String := ["AITAN", "INTERNAL"]

/-- The `choices` list declared on the model's `status` field. -/
def kycStatusChoices : List String :=
  ["FOUND", "NOT_FOUND", "BAD_REQUEST", "TOO_MANY_REQUESTS", "ERROR"]

/-- Embeds mongoengine's document validation as run by
`KYCValidationTransaction.save()`: each field with a `choices` declaration
must hold one of the declared choices.  Returns `true` exactly when the
save succeeds (schema-wise). -/
def KYCTxn.validates (t : KYCTxn) : Bool :=
  kycApiNameChoices.contains t.api_name &&
  kycProviderNameChoices.contains t.provider_name &&
  kycStatusChoices.contains t.status

/-- Embeds `KYCRepository.get_kyc_validation_transaction`: an if-chain on
`api_name` with one query per known document type, each filtering on the
api name, the type's identifier field inside `kyc_transaction_details`,
and `status__in` the given billable-status list; the
`EV_EMPLOYMENT_LATEST` branch matches any of its six fields.  There is no
branch for `KYB_GSTIN` (or any other name), so the Python function falls
off the chain and implicitly returns `None` for them.  The store is a list
in natural (insertion) order and `.first()` takes the first match. -/
def get_kyc_validation_transaction (api_name identifier : String)
    (kyc_service_billable_status : List String) (db : List KYCTxn) : Option KYCTxn :=
  if api_name = "KYC_PAN" then
    db.find? (fun t => t.api_name == api_name &&
      t.kyc_transaction_details.pan == some identifier &&
      kyc_service_billable_status.contains t.status)
  else if api_name = "KYC_RC" then
    db.find? (fun t => t.api_name == api_name &&
      t.kyc_transaction_details.reg_no == some identifier &&
      kyc_service_billable_status.contains t.status)
  else if api_name = "KYC_VOTER" then
    db.find? (fun t => t.api_name == api_name &&
      t.kyc_transaction_details.epic_no == some identifier &&
      kyc_service_billable_status.contains t.status)
  else if api_name = "KYC_DL" then
    db.find? (fun t => t.api_name == api_name &&
      t.kyc_transaction_details.dl_no == some identifier &&
      kyc_service_billable_status.contains t.status)
  else if api_name = "KYC_PASSPORT" then
    db.find? (fun t => t.api_name == api_name &&
      t.kyc_transaction_details.file_number == some identifier &&
      kyc_service_billable_status.contains t.status)
  else if api_name = "KYC_AADHAAR" then
    db.find? (fun t => t.api_name == api_name &&
      t.kyc_transaction_details.aadhaar == some identifier &&
      kyc_service_billable_status.contains t.status)
  else if api_name = "KYC_MOBILE_LOOKUP" then
    db.find? (fun t => t.api_name == api_name &&
      t.kyc_transaction_details.mobile == some identifier &&
      kyc_service_billable_status.contains t.status)
  else if api_name = "EV_EMPLOYMENT_LATEST" then
    db.find? (fun t => t.api_name == api_name &&
      (t.kyc_transaction_details.uan == some identifier ||
       t.kyc_transaction_details.pan == some identifier ||
       t.kyc_transaction_details.mobile == some identifier ||
       t.kyc_transaction_details.dob == some identifier ||
       t.kyc_transaction_details.employer_name == some identifier ||
       t.kyc_transaction_details.employee_name == some identifier) &&
      kyc_service_billable_status.contains t.status)
  else none

/-- The per-type identifier-match condition of the cache query, one case per
branch of `get_kyc_validation_transaction` (the employment branch is an OR
across its six fields). -/
def identifierMatches (api_name identifier : String) (t : KYCTxn) : Prop :=
  if api_name = "KYC_PAN" then t.kyc_transaction_details.pan = some identifier
  else if api_name = "KYC_RC" then t.kyc_transaction_details.reg_no = some identifier
  else if api_name = "KYC_VOTER" then t.kyc_transaction_details.epic_no = some identifier
  else if api_name = "KYC_DL" then t.kyc_transaction_details.dl_no = some identifier
  else if api_name = "KYC_PASSPORT" then t.kyc_transaction_details.file_number = some identifier
  else if api_name = "KYC_AADHAAR" then t.kyc_transaction_details.aadhaar = some identifier
  else if api_name = "KYC_MOBILE_LOOKUP" then t.kyc_transaction_details.mobile = some identifier
  else if api_name = "EV_EMPLOYMENT_LATEST" then
    t.kyc_transaction_details.uan = some identifier ∨
    t.kyc_transaction_details.pan = some identifier ∨
    t.kyc_transaction_details.mobile = some identifier ∨
    t.kyc_transaction_details.dob = some identifier ∨
    t.kyc_transaction_details.employer_name = some identifier ∨
    t.kyc_transaction_details.employee_name = some identifier
  else False

/-! ## The verification pipeline (handlers/aadhaar_handler.py and its seven
structurally identical siblings: voter, dl, passport, gstin, mobile-lookup,
email-lookup, employment-latest)

The eight `get_<type>_kyc_details` methods share one shape; the embedding
captures it once, parameterized by the per-type data each handler hard
codes (api name, cost attribute, billable-status attribute names, status
classifier, identifier fields, default message).  Attribute names are kept
as strings and resolved through `ServicePricing.attr` and
`kycServiceBillableStatusAttr`, because two handlers reference attributes
that do not exist on those classes. -/

/-- The per-document-type data hard-coded in each handler. -/
structure DocCfg where
  api_name : String
  costAttr : String
  cacheStatusAttr : String
  billingStatusAttr : String
  defaultMessage : String := "No message provided"
  determine : Int → ProviderResp → String
  cacheIdentifier : TxnDetails → String
  descIdentifier : TxnDetails → String

/-- The state a verification request reads and writes: the ledger (user
credits and ledger transactions) and the verification-transaction store in
natural insertion order. -/
structure PipelineState where
  ledger : LedgerState
  kycdb : List KYCTxn

/-- What a completed request produces: the returned payload and HTTP code,
the finalized transaction record, the post-request state, and whether the
Provider Client was invoked. -/
structure PipeOutcome where
  response : Option ProviderResp
  http_status_code : Int
  txn : KYCTxn
  state : PipelineState
  providerCalled : Bool

/-- The placeholder transaction created at the start of a request
(`create_kyc_validation_transaction` with status ERROR, provider INTERNAL,
http 500). -/
def mkPlaceholder (cfg : DocCfg) (user_id : String) : KYCTxn :=
  { user_id := user_id, api_name := cfg.api_name, status := "ERROR",
    provider_name := "INTERNAL", http_status_code := 500 }

/-- Embeds the `__get_<type>_details_from_db` helper: resolve the type's
billable-status attribute (an `AttributeError` here is caught by the
helper's `except`, producing a cache miss), query the repository, and
require a truthy `kyc_provider_response` on the hit. -/
def handlerCacheLookup (cfg : DocCfg) (db : List KYCTxn) (details : TxnDetails) :
    Option KYCTxn :=
  match kycServiceBillableStatusAttr cfg.cacheStatusAttr with
  | none => none
  | some billable =>
    match get_kyc_validation_transaction cfg.api_name (cfg.cacheIdentifier details)
        billable db with
    | some t => if t.kyc_provider_response.isSome then some t else none
    | none => none

/-- The cache-hit update of the placeholder: copy the cached transaction's
outcome fields, mark `is_cached` and provider INTERNAL. -/
def updateFromCache (placeholder cached : KYCTxn) : KYCTxn :=
  { placeholder with
    http_status_code := cached.http_status_code,
    tat := 0,
    message := cached.message,
    kyc_transaction_details := cached.kyc_transaction_details,
    kyc_provider_request := cached.kyc_provider_request,
    kyc_provider_response := cached.kyc_provider_response,
    status := cached.status,
    is_cached := true,
    provider_name := "INTERNAL" }

/-- The cache-miss update of the placeholder from a live provider response:
store the HTTP code, the provider message (or the handler's default), the
request fields, the raw body, the classified status, `is_cached = false`
and provider AITAN. -/
def updateFromApi (cfg : DocCfg) (placeholder : KYCTxn) (code : Int)
    (body : ProviderResp) (details : TxnDetails) : KYCTxn :=
  { placeholder with
    http_status_code := code,
    tat := 0,
    message := some (body.message.getD cfg.defaultMessage),
    kyc_transaction_details := details,
    kyc_provider_request := details,
    kyc_provider_response := some body,
    status := cfg.determine code body,
    is_cached := false,
    provider_name := "AITAN" }

/-- Embeds the `__get_<type>_details_from_api` helper.  The provider call
and JSON parsing are summarized by `providerOutcome`: an exception there is
logged and re-raised with the placeholder untouched; a parsed response
updates the placeholder. -/
def getFromApi (cfg : DocCfg) (placeholder : KYCTxn)
    (providerOutcome : Except String (Int × ProviderResp)) (details : TxnDetails) :
    Except PyErr (KYCTxn × ProviderResp) :=
  match providerOutcome with
  | .error e => .error (.exn e)
  | .ok (code, body) => .ok (updateFromApi cfg placeholder code body details, body)

/-- The billing tail of every handler: resolve the type's billable set with
`getattr` (an `AttributeError` here propagates), and when the final status
is billable call `deduct_credits` with three positional arguments
(`user_id`, the service name, and the `status|identifier` description), as
every call site does. -/
def billAndReturn (cfg : DocCfg) (p : ServicePricing) (st : PipelineState)
    (txn : KYCTxn) (response : Option ProviderResp) (providerCalled : Bool)
    (details : TxnDetails) (user_id : String) : Except PyErr PipeOutcome :=
  match kycServiceBillableStatusAttr cfg.billingStatusAttr with
  | none => .error .attributeError
  | some billable =>
    if billable.contains txn.status then
      match deduct_credits p st.ledger
          [user_id, cfg.api_name, txn.status ++ "|" ++ cfg.descIdentifier details] with
      | .error e => .error e
      | .ok (ledger2, _) =>
        .ok { response := response, http_status_code := txn.http_status_code,
              txn := txn, state := { st with ledger := ledger2 },
              providerCalled := providerCalled }
    else
      .ok { response := response, http_status_code := txn.http_status_code,
            txn := txn, state := st, providerCalled := providerCalled }

/-- Embeds the `get_<type>_kyc_details` handler body: eligibility check
(`get_user_by_id(user_id).credits < ServicePricing.<costAttr>`, raising
`InsufficientCreditsException` when short of credits), placeholder
creation, cache lookup, cache-hit copy or live call, then billing.  The
placeholder's saved copy is not threaded into the store here: its ERROR
status can never match a billable cache filter.  `providerOutcome`
abstracts the external provider call used on a cache miss. -/
def getKycDetails (cfg : DocCfg) (p : ServicePricing) (st : PipelineState)
    (providerOutcome : Except String (Int × ProviderResp)) (details : TxnDetails)
    (user_id : String) : Except PyErr PipeOutcome :=
  match st.ledger.getCredits user_id with
  | none => .error .attributeError
  | some credits =>
    match p.attr cfg.costAttr with
    | none => .error .attributeError
    | some cost =>
      if credits < cost then .error .insufficientCredits
      else
        let placeholder := mkPlaceholder cfg user_id
        match handlerCacheLookup cfg st.kycdb details with
        | some cached =>
          billAndReturn cfg p st (updateFromCache placeholder cached)
            cached.kyc_provider_response false details user_id
        | none =>
          match getFromApi cfg placeholder providerOutcome details with
          | .error e => .error e
          | .ok (txn, body) => billAndReturn cfg p st txn (some body) true details user_id

/-- Embeds the per-endpoint wrapper in `routes/api/kyc_router.py`: an
`InsufficientCreditsException` is answered with HTTP 402, any other
exception with HTTP 400, and a normal return passes the transaction's HTTP
status through. -/
def routeHttpStatus (r : Except PyErr PipeOutcome) : Int :=
  match r with
  | .error .insufficientCredits => 402
  | .error _ => 400
  | .ok o => o.http_status_code

/-- Configuration hard-coded in `AadhaarHandler`. -/
def cfgAadhaar : DocCfg :=
  { api_name := "KYC_AADHAAR", costAttr := "KYC_AADHAAR_COST",
    cacheStatusAttr := "KYC_AADHAAR", billingStatusAttr := "KYC_AADHAAR",
    determine := fun code body => AadhaarHandler.determine_status code (body.status_code.getD 0),
    cacheIdentifier := fun d => d.aadhaar.getD "",
    descIdentifier := fun d => d.aadhaar.getD "" }

/-- Configuration hard-coded in `VoterHandler`. -/
def cfgVoter : DocCfg :=
  { api_name := "KYC_VOTER", costAttr := "KYC_VOTER_COST",
    cacheStatusAttr := "KYC_VOTER", billingStatusAttr := "KYC_VOTER",
    determine := fun code body => VoterHandler.determine_status code (body.status_code.getD 0),
    cacheIdentifier := fun d => d.epic_no.getD "",
    descIdentifier := fun d => d.epic_no.getD "" }

/-- Configuration hard-coded in `DLHandler`. -/
def cfgDL : DocCfg :=
  { api_name := "KYC_DL", costAttr := "KYC_DL_COST",
    cacheStatusAttr := "KYC_DL", billingStatusAttr := "KYC_DL",
    determine := fun code body => DLHandler.determine_status code (body.status_code.getD 0),
    cacheIdentifier := fun d => d.dl_no.getD "",
    descIdentifier := fun d => d.dl_no.getD "" }

/-- Configuration hard-coded in `PassportHandler`. -/
def cfgPassport : DocCfg :=
  { api_name := "KYC_PASSPORT", costAttr := "KYC_PASSPORT_COST",
    cacheStatusAttr := "KYC_PASSPORT", billingStatusAttr := "KYC_PASSPORT",
    determine := fun code body => PassportHandler.determine_status code (body.status_code.getD 0),
    cacheIdentifier := fun d => d.file_number.getD "",
    descIdentifier := fun d => d.file_number.getD "" }

/-- Configuration hard-coded in `GSTINHandler` (provider body comes from the
scraper; its classifier reads only the HTTP status and the fallback message
differs). -/
def cfgGstin : DocCfg :=
  { api_name := "KYB_GSTIN", costAttr := "KYB_GSTIN_COST",
    cacheStatusAttr := "KYB_GSTIN", billingStatusAttr := "KYB_GSTIN",
    defaultMessage := "GSTIN NOT FOUND",
    determine := fun code _ => GSTINHandler.determine_status code,
    cacheIdentifier := fun d => d.gstin.getD "",
    descIdentifier := fun d => d.gstin.getD "" }

/-- Configuration hard-coded in `MobileLookupHandler`.  Its eligibility
check reads `ServicePricing.KYC_MOBILE_LOOKUP_COST`, an attribute that does
not exist (the class defines `MOBILE_LOOKUP_COST`), so every request raises
`AttributeError` there.  The handler also injects confidence scores into a
200 response body before persisting; that step is unreachable behind the
failing eligibility check and no claim depends on it, so it is not threaded
through the pipeline — the scores themselves are verified on the dedicated
score functions below. -/
def cfgMobileLookup : DocCfg :=
  { api_name := "KYC_MOBILE_LOOKUP", costAttr := "KYC_MOBILE_LOOKUP_COST",
    cacheStatusAttr := "KYC_MOBILE_LOOKUP", billingStatusAttr := "KYC_MOBILE_LOOKUP",
    determine := fun code _ => MobileLookupHandler.determine_status code,
    cacheIdentifier := fun d => d.mobile.getD "",
    descIdentifier := fun d => d.mobile.getD "" }

/-- Configuration hard-coded in `EmailLookupHandler`.  Neither
`ServicePricing.KYC_EMAIL_LOOKUP_COST` nor the enum member
`UserLedgerTransactionType.KYC_EMAIL_LOOKUP` nor
`KYCServiceBillableStatus.KYC_EMAIL_LOOKUP` exist; the eligibility step
already raises `AttributeError`, so everything after it is unreachable.
The billing check (unreachably) reads the mobile-lookup billable set. -/
def cfgEmailLookup : DocCfg :=
  { api_name := "KYC_EMAIL_LOOKUP", costAttr := "KYC_EMAIL_LOOKUP_COST",
    cacheStatusAttr := "KYC_EMAIL_LOOKUP", billingStatusAttr := "KYC_MOBILE_LOOKUP",
    determine := fun code _ => EmailLookupHandler.determine_status code,
    cacheIdentifier := fun d => d.email.getD "",
    descIdentifier := fun d => d.email.getD "" }

/-- Configuration hard-coded in `EmploymentLatestHandler`.  The cache
identifier is the Python `or`-chain `uan or dob or pan or mobile or
employer_name or employee_name` (first non-empty field in that order).
`KYCServiceBillableStatus` has no `EV_EMPLOYMENT_LATEST` attribute: the
cache helper catches the resulting `AttributeError` (always a miss) while
the billing `getattr` lets it propagate. -/
def cfgEmploymentLatest : DocCfg :=
  { api_name := "EV_EMPLOYMENT_LATEST", costAttr := "EV_EMPLOYMENT_LATEST_COST",
    cacheStatusAttr := "EV_EMPLOYMENT_LATEST", billingStatusAttr := "EV_EMPLOYMENT_LATEST",
    determine := fun code body =>
      EmploymentLatestHandler.determine_status code (body.status_code.getD 0),
    cacheIdentifier := fun d =>
      if d.uan.getD "" ≠ "" then d.uan.getD ""
      else if d.dob.getD "" ≠ "" then d.dob.getD ""
      else if d.pan.getD "" ≠ "" then d.pan.getD ""
      else if d.mobile.getD "" ≠ "" then d.mobile.getD ""
      else if d.employer_name.getD "" ≠ "" then d.employer_name.getD ""
      else d.employee_name.getD "",
    descIdentifier := fun d => d.uan.getD "" }

/-! ## Confidence scores (handlers/mobile_lookup_handler.py) -/

/-- The registration flags the score functions read from the provider's
`result` dict.  A flag is `true` exactly when the platform's entry is a
dict with a truthy `registered` field (the `isinstance` + `.get` checks in
the source). -/
structure ScoreFlags where
  whatsapp : Bool := false
  instagram : Bool := false
  facebook : Bool := false
  twitter : Bool := false
  amazon : Bool := false
  flipkart : Bool := false
  paytm : Bool := false
deriving DecidableEq

/-- Python's `round(q)` on an exact value: round half to even. -/
def pythonRound (q : ℚ) : ℤ :=
  let f := ⌊q⌋
  let frac := q - f
  if frac < 1/2 then f
  else if frac > 1/2 then f + 1
  else if f % 2 = 0 then f else f + 1

/-- Python's `round(q, 2)`: round to two decimal places. -/
def round2 (q : ℚ) : ℚ := (pythonRound (q * 100) : ℚ) / 100

/-- The four reported scores. -/
structure ConfidenceScores where
  social_media_score : ℚ
  ecommerce_score : ℚ
  payment_score : ℚ
  confidence_score : ℚ
deriving DecidableEq

namespace MobileLookupHandler

/-- Embeds `MobileLookupHandler.__calculate_social_media_score`
(incremental weight additions, as in the source). -/
def calculate_social_media_score (result : ScoreFlags) : ℚ :=
  let score : ℚ := 0
  let score := if result.whatsapp then score + 4/10 else score
  let score := if result.instagram then score + 3/10 else score
  let score := if result.facebook then score + 2/10 else score
  let score := if result.twitter then score + 1/10 else score
  score

/-- Embeds `MobileLookupHandler.__calculate_ecommerce_score`. -/
def calculate_ecommerce_score (result : ScoreFlags) : ℚ :=
  let score : ℚ := 0
  let score := if result.amazon then score + 6/10 else score
  let score := if result.flipkart then score + 4/10 else score
  score

/-- Embeds `MobileLookupHandler.__calculate_payment_score`. -/
def calculate_payment_score (result : ScoreFlags) : ℚ :=
  if result.paytm then 1 else 0

/-- Embeds `MobileLookupHandler.__determine_total_mobile_confidence_score`.
`mobile_lookup_result` is the response body's `result` entry; `none` stands
for a missing or non-dict `result`, which like a non-200 HTTP status yields
all-zero scores. -/
def determine_total_mobile_confidence_score (mobile_lookup_result : Option ScoreFlags)
    (http_status_code : Int) : ConfidenceScores :=
  if http_status_code = 200 then
    match mobile_lookup_result with
    | none =>
      { social_media_score := 0, ecommerce_score := 0,
        payment_score := 0, confidence_score := 0 }
    | some result =>
      let social_media_score := calculate_social_media_score result
      let ecommerce_score := calculate_ecommerce_score result
      let payment_score := calculate_payment_score result
      let total_score := (social_media_score + ecommerce_score + payment_score) / 3
      { social_media_score := round2 (social_media_score * 100),
        ecommerce_score := round2 (ecommerce_score * 100),
        payment_score := round2 (payment_score * 100),
        confidence_score := round2 (total_score * 100) }
  else
    { social_media_score := 0, ecommerce_score := 0,
      payment_score := 0, confidence_score := 0 }

end MobileLookupHandler

/-! ## Provider Client (services/base_services.py) -/

namespace BaseService

/-- Embeds `BaseService.calculate_tat`: elapsed seconds between two
wall-clock readings. -/
def calculate_tat (start_time end_time : ℚ) : ℚ := end_time - start_time

/-- The retry condition list in `call_external_api`. -/
def retryStatuses : List Int := [500, 501, 502, 503, 504]

/-- Number of POST attempts the `for attempt in range(max_retries)` loop
performs, given the status each successive POST would return.  The loop
breaks as soon as a status outside `retryStatuses` arrives and otherwise
runs until the range is exhausted. -/
def loopAttempts (responses : Nat → Int) : Nat → Nat → Nat
  | 0, i => i
  | fuel + 1, i =>
    if retryStatuses.contains (responses i) ∧ fuel ≠ 0 then
      loopAttempts responses fuel (i + 1)
    else i + 1

/-- The sleeps the loop performs: after every retryable response the loop
waits exactly `delay` seconds before the next action. -/
def loopSleeps (responses : Nat → Int) (delay : ℚ) : Nat → Nat → List ℚ
  | 0, _ => []
  | fuel + 1, i =>
    if retryStatuses.contains (responses i) then
      delay :: loopSleeps responses delay fuel (i + 1)
    else []

/-- Embeds `BaseService.call_external_api` for a given max retry count
(every service call site uses the default `max_retries=3`, `delay=1`).
Returns the last response's status together with the elapsed wall-clock
seconds.  With `max_retries = 0` the Python loop body never runs and the
final `response` reference raises `NameError`, modelled as `none`. -/
def call_external_api (responses : Nat → Int) (max_retries : Nat)
    (start_time end_time : ℚ) : Option (Int × ℚ) :=
  if max_retries = 0 then none
  else
    let attempts := loopAttempts responses max_retries 0
    some (responses (attempts - 1), calculate_tat start_time end_time)

end BaseService

/-! ## Concrete fixtures used by the theorems below -/

/-- A concrete pricing table (values come from the environment; these stand
for one deployment). -/
def samplePricing : ServicePricing := ⟨1, 2, 3, 4, 5, 6, 7, 8, 9, 10⟩

/-- A concrete successful provider body. -/
def bodyFound : ProviderResp :=
  { status_code := some 100, message := some "Success", tag := "payload-1" }

/-- Request details for a concrete Aadhaar verification. -/
def aadhaarDetails : TxnDetails := { aadhaar := some "999941057058" }

/-- Request details for a concrete mobile lookup. -/
def mobileDetails : TxnDetails := { mobile := some "9876543210" }

/-- A prior FOUND Aadhaar transaction sitting in the store. -/
def cachedAadhaarFound : KYCTxn :=
  { user_id := "u0", api_name := "KYC_AADHAAR", provider_name := "AITAN",
    is_cached := false, tat := 1, http_status_code := 200, status := "FOUND",
    message := some "Success",
    kyc_transaction_details := aadhaarDetails,
    kyc_provider_request := aadhaarDetails,
    kyc_provider_response := some bodyFound }

/-- A prior FOUND GSTIN transaction sitting in the store. -/
def cachedGstinFound : KYCTxn :=
  { user_id := "u0", api_name := "KYB_GSTIN", provider_name := "AITAN",
    is_cached := false, tat := 1, http_status_code := 200, status := "FOUND",
    message := some "Success",
    kyc_transaction_details := { gstin := some "27AAPFU0939F1ZV" },
    kyc_provider_request := { gstin := some "27AAPFU0939F1ZV" },
    kyc_provider_response := some bodyFound }

/-- A ledger with one well-funded user `u1`. -/
def richLedger : LedgerState := { credits := [("u1", 100)], txns := [] }

/-- A ledger with one user `u2` holding zero credits. -/
def poorLedger : LedgerState := { credits := [("u2", 0)], txns := [] }

/-- State in which the Aadhaar cache lookup hits. -/
def hitState : PipelineState := { ledger := richLedger, kycdb := [cachedAadhaarFound] }

/-- State with an empty verification store (every lookup misses). -/
def missState : PipelineState := { ledger := richLedger, kycdb := [] }

/-- State for the zero-credit user. -/
def poorState : PipelineState := { ledger := poorLedger, kycdb := [] }

/-- Lookup-result flags: whatsapp and instagram registered, all else not. -/
def flagsWhatsappInstagram : ScoreFlags := { whatsapp := true, instagram := true }

/-- A FOUND transaction carrying a modern api_name tag, as every handler
builds them. -/
def modernFoundTxn : KYCTxn :=
  { user_id := "u1", api_name := "KYC_AADHAAR",
    provider_name := "INTERNAL", status := "FOUND" }

/-- A legacy-tagged transaction whose status is SOURCE_DOWN. -/
def legacySourceDownTxn : KYCTxn :=
  { user_id := "u1", api_name := "PAN",
    provider_name := "AITAN", status := "SOURCE_DOWN" }

/-- A provider that answers 503 on the first POST and 404 afterwards. -/
def retryThenClientError : Nat → Int := fun i => if i = 0 then 503 else 404

/-- The spec's social-media formula, written as a weighted sum:
0.4·whatsapp + 0.3·instagram + 0.2·facebook + 0.1·twitter, each term 1 if
registered else 0. -/
def specSocialMediaFormula (result : ScoreFlags) : ℚ :=
  (if result.whatsapp then (4 : ℚ) / 10 else 0) +
  (if result.instagram then (3 : ℚ) / 10 else 0) +
  (if result.facebook then (2 : ℚ) / 10 else 0) +
  (if result.twitter then (1 : ℚ) / 10 else 0)

/-- The spec's ecommerce formula: 0.6·amazon + 0.4·flipkart. -/
def specEcommerceFormula (result : ScoreFlags) : ℚ :=
  (if result.amazon then (6 : ℚ) / 10 else 0) +
  (if result.flipkart then (4 : ℚ) / 10 else 0)

/-- The spec's payment formula: 1.0 if paytm registered else 0. -/
def specPaymentFormula (result : ScoreFlags) : ℚ :=
  if result.paytm then 1 else 0

/-- The spec's reported-score bundle: each of the three component scores and
their third-of-sum confidence score, multiplied by 100 and rounded to two
decimals. -/
def specConfidenceScores (result : ScoreFlags) : ConfidenceScores :=
  { social_media_score := round2 (specSocialMediaFormula result * 100),
    ecommerce_score := round2 (specEcommerceFormula result * 100),
    payment_score := round2 (specPaymentFormula result * 100),
    confidence_score := round2 ((specSocialMediaFormula result +
      specEcommerceFormula result + specPaymentFormula result) / 3 * 100) }

/-- The all-zero score bundle reported when no scores are computed. -/
def zeroScores : ConfidenceScores :=
  { social_media_score := 0, ecommerce_score := 0,
    payment_score := 0, confidence_score := 0 }

/-- A concrete credit purchase for user u1. -/
def purchaseOp : LedgerOp :=
  { user_id := "u1", type := "CREDIT", amount := 50,
    description := "Credits Purchased" }

/-- The ledger state that applying `purchaseOp` to `richLedger` produces. -/
def creditedLedger : LedgerState :=
  { credits := [("u1", 100 + 50)],
    txns := [{ user_id := "u1", type := "CREDIT", amount := 50,
               description := "Credits Purchased", balance := 100 + 50 }] }

/-! ## Theorems -/

/-- C4, counterexample.  The claim's classification table fails on two of
the five named types: the Voter classifier maps (http 200, provider code
101) to ERROR, not FOUND (it has no 101 branch), and the PAN classifier
maps (http 200, any unrecognized provider code) to FOUND, not ERROR (its
HTTP fallback treats every 200 as FOUND). -/
theorem C4_counterexample :
    VoterHandler.determine_status 200 101 = "ERROR" ∧
    VoterHandler.determine_status 200 101 ≠ "FOUND" ∧
    PanHandler.determine_status 200 (some { status_code := some 103 }) = "FOUND" ∧
    PanHandler.determine_status 200 (some { status_code := some 103 }) ≠ "ERROR" := by
  refine ⟨rfl, by decide, rfl, by decide⟩

/-- C4, amended.  The claimed table holds verbatim for DL, Passport and
Aadhaar (with Aadhaar alone mapping 503 to SOURCE_DOWN).  Voter deviates in
one cell: (200, 101) yields ERROR because its classifier only recognizes
100 and 102.  PAN's classifier consults the provider code before the HTTP
status — 100/101 give FOUND and 102 gives NOT_FOUND for any HTTP status —
and for any other (or missing) provider code falls back to the HTTP status
with 200 mapping to FOUND (not ERROR), 400 to BAD_REQUEST, and anything
else to ERROR. -/
theorem C4_amended_classification_tables :
    (AadhaarHandler.determine_status 200 100 = "FOUND" ∧
     AadhaarHandler.determine_status 200 101 = "FOUND" ∧
     AadhaarHandler.determine_status 200 102 = "NOT_FOUND" ∧
     (∀ c : ℤ, c ≠ 100 → c ≠ 101 → c ≠ 102 → AadhaarHandler.determine_status 200 c = "ERROR") ∧
     (∀ c : ℤ, AadhaarHandler.determine_status 400 c = "BAD_REQUEST") ∧
     (∀ c : ℤ, AadhaarHandler.determine_status 503 c = "SOURCE_DOWN")) ∧
    (DLHandler.determine_status 200 100 = "FOUND" ∧
     DLHandler.determine_status 200 101 = "FOUND" ∧
     DLHandler.determine_status 200 102 = "NOT_FOUND" ∧
     (∀ c : ℤ, c ≠ 100 → c ≠ 101 → c ≠ 102 → DLHandler.determine_status 200 c = "ERROR") ∧
     (∀ c : ℤ, DLHandler.determine_status 400 c = "BAD_REQUEST") ∧
     (∀ c : ℤ, DLHandler.determine_status 503 c = "ERROR")) ∧
    (PassportHandler.determine_status 200 100 = "FOUND" ∧
     PassportHandler.determine_status 200 101 = "FOUND" ∧
     PassportHandler.determine_status 200 102 = "NOT_FOUND" ∧
     (∀ c : ℤ, c ≠ 100 → c ≠ 101 → c ≠ 102 → PassportHandler.determine_status 200 c = "ERROR") ∧
     (∀ c : ℤ, PassportHandler.determine_status 400 c = "BAD_REQUEST") ∧
     (∀ c : ℤ, PassportHandler.determine_status 503 c = "ERROR")) ∧
    (VoterHandler.determine_status 200 100 = "FOUND" ∧
     VoterHandler.determine_status 200 101 = "ERROR" ∧
     VoterHandler.determine_status 200 102 = "NOT_FOUND" ∧
     (∀ c : ℤ, c ≠ 100 → c ≠ 102 → VoterHandler.determine_status 200 c = "ERROR") ∧
     (∀ c : ℤ, VoterHandler.determine_status 400 c = "BAD_REQUEST") ∧
     (∀ c : ℤ, VoterHandler.determine_status 503 c = "ERROR")) ∧
    ((∀ (h : ℤ) (r : ProviderResp),
        r.status_code = some 100 ∨ r.status_code = some 101 →
        PanHandler.determine_status h (some r) = "FOUND") ∧
     (∀ (h : ℤ) (r : ProviderResp),
        r.status_code = some 102 →
        PanHandler.determine_status h (some r) = "NOT_FOUND") ∧
     (∀ r : ProviderResp,
        r.status_code ≠ some 100 → r.status_code ≠ some 101 → r.status_code ≠ some 102 →
        PanHandler.determine_status 200 (some r) = "FOUND") ∧
     (∀ r : ProviderResp,
        r.status_code ≠ some 100 → r.status_code ≠ some 101 → r.status_code ≠ some 102 →
        PanHandler.determine_status 400 (some r) = "BAD_REQUEST") ∧
     PanHandler.determine_status 200 none = "FOUND" ∧
     PanHandler.determine_status 400 none = "BAD_REQUEST") := by
  refine ⟨⟨rfl, rfl, rfl, ?_, ?_, ?_⟩, ⟨rfl, rfl, rfl, ?_, ?_, ?_⟩,
    ⟨rfl, rfl, rfl, ?_, ?_, ?_⟩, ⟨rfl, rfl, rfl, ?_, ?_, ?_⟩,
    ⟨?_, ?_, ?_, ?_, rfl, rfl⟩⟩
  · intro c h1 h2 h3
    simp [AadhaarHandler.determine_status, h1, h2, h3]
  · intro c
    simp [AadhaarHandler.determine_status]
  · intro c
    simp [AadhaarHandler.determine_status]
  · intro c h1 h2 h3
    simp [DLHandler.determine_status, h1, h2, h3]
  · intro c
    simp [DLHandler.determine_status]
  · intro c
    simp [DLHandler.determine_status]
  · intro c h1 h2 h3
    simp [PassportHandler.determine_status, h1, h2, h3]
  · intro c
    simp [PassportHandler.determine_status]
  · intro c
    simp [PassportHandler.determine_status]
  · intro c h1 h2
    simp [VoterHandler.determine_status, h1, h2]
  · intro c
    simp [VoterHandler.determine_status]
  · intro c
    simp [VoterHandler.determine_status]
  · intro h r hor
    simp only [PanHandler.determine_status]
    rw [if_pos hor]
  · intro h r h102
    simp only [PanHandler.determine_status]
    rw [if_neg (by simp [h102]), if_pos h102]
  · intro r h1 h2 h3
    simp only [PanHandler.determine_status]
    rw [if_neg (by simp [h1, h2]), if_neg h3]
    rfl
  · intro r h1 h2 h3
    simp only [PanHandler.determine_status]
    rw [if_neg (by simp [h1, h2]), if_neg h3]
    rfl

/-- C4, witness for the amended theorem: the hypothesis-bearing rows applied
at concrete codes. -/
theorem C4_amended_witness :
    AadhaarHandler.determine_status 200 103 = "ERROR" ∧
    VoterHandler.determine_status 200 103 = "ERROR" ∧
    PanHandler.determine_status 200 (some { status_code := some 103 }) = "FOUND" := by
  refine ⟨C4_amended_classification_tables.1.2.2.2.1 103 (by decide) (by decide) (by decide),
    C4_amended_classification_tables.2.2.2.1.2.2.2.1 103 (by decide) (by decide),
    C4_amended_classification_tables.2.2.2.2.2.2.1 { status_code := some 103 }
      (by decide) (by decide) (by decide)⟩

/-- C8: the claim says every pipeline-produced transaction is storable, but
the model's `choices` declarations reject every modern `api_name` tag
(only "PAN" and "RC_V1" are allowed) and reject the SOURCE_DOWN and
PARTIAL_CONTENT statuses, so mongoengine validation fails — even for the
placeholder every handler creates at the start of a request. -/
theorem C8_store_rejects_pipeline_values :
    KYCTxn.validates modernFoundTxn = false ∧
    KYCTxn.validates (mkPlaceholder cfgAadhaar "u1") = false ∧
    kycApiNameChoices.contains "KYC_AADHAAR" = false ∧
    kycStatusChoices.contains "SOURCE_DOWN" = false ∧
    kycStatusChoices.contains "PARTIAL_CONTENT" = false ∧
    KYCTxn.validates legacySourceDownTxn = false :=
  ⟨rfl, rfl, rfl, rfl, rfl, rfl⟩

/-- Helper: the retry loop performs at least one attempt when the range is
non-empty. -/
lemma loopAttempts_pos (r : Nat → Int) :
    ∀ (fuel i : Nat), fuel ≠ 0 → i < BaseService.loopAttempts r fuel i := by
  intro fuel
  induction fuel with
  | zero => intro i h; exact absurd rfl h
  | succ n ih =>
    intro i _
    unfold BaseService.loopAttempts
    split
    · next hcond => exact Nat.lt_trans (Nat.lt_succ_self i) (ih (i + 1) hcond.2)
    · exact Nat.lt_succ_self i

/-- Helper: the retry loop performs at most `fuel` attempts. -/
lemma loopAttempts_le (r : Nat → Int) :
    ∀ (fuel i : Nat), BaseService.loopAttempts r fuel i ≤ i + fuel := by
  intro fuel
  induction fuel with
  | zero => intro i; simp [BaseService.loopAttempts]
  | succ n ih =>
    intro i
    unfold BaseService.loopAttempts
    split
    · have := ih (i + 1)
      omega
    · omega

/-- Helper: every attempt that was followed by another one got a retryable
(5xx) status. -/
lemma loopAttempts_retry_mid (r : Nat → Int) :
    ∀ (fuel i j : Nat), i ≤ j → j + 1 < BaseService.loopAttempts r fuel i →
      BaseService.retryStatuses.contains (r j) = true := by
  intro fuel
  induction fuel with
  | zero =>
    intro i j hij hlt
    simp only [BaseService.loopAttempts] at hlt
    omega
  | succ n ih =>
    intro i j hij hlt
    unfold BaseService.loopAttempts at hlt
    split at hlt
    · next hcond =>
      rcases Nat.eq_or_lt_of_le hij with heq | hlt2
      · subst heq; exact hcond.1
      · exact ih (i + 1) j hlt2 hlt
    · omega

/-- Helper: a non-retryable status ends the loop at that attempt. -/
lemma loopAttempts_stop (r : Nat → Int) :
    ∀ (fuel i j : Nat), i ≤ j → j < BaseService.loopAttempts r fuel i →
      BaseService.retryStatuses.contains (r j) = false →
      BaseService.loopAttempts r fuel i = j + 1 := by
  intro fuel
  induction fuel with
  | zero =>
    intro i j hij hlt _
    simp only [BaseService.loopAttempts] at hlt
    omega
  | succ n ih =>
    intro i j hij hlt hno
    unfold BaseService.loopAttempts at hlt ⊢
    split at hlt
    · next hcond =>
      rcases Nat.eq_or_lt_of_le hij with heq | hlt2
      · subst heq
        rw [hcond.1] at hno
        exact absurd hno (by simp)
      · rw [if_pos hcond]
        exact ih (i + 1) j hlt2 hlt hno
    · next hcond =>
      rw [if_neg hcond]
      omega

/-- Helper: a status in the retry list is a 5xx server error. -/
lemma retryStatuses_are_5xx (s : Int) :
    BaseService.retryStatuses.contains s = true → 500 ≤ s ∧ s ≤ 504 := by
  intro h
  simp only [BaseService.retryStatuses, List.contains_cons, List.contains_nil,
    Bool.or_false, Bool.or_eq_true, beq_iff_eq] at h
  omega

/-- Helper: a 4xx status is never in the retry list. -/
lemma notRetry_of_4xx (s : Int) (h1 : 400 ≤ s) (h2 : s < 500) :
    BaseService.retryStatuses.contains s = false := by
  simp only [BaseService.retryStatuses, List.contains_cons, List.contains_nil,
    Bool.or_false, Bool.or_eq_false_iff, beq_eq_false_iff_ne]
  omega

/-- Helper: every wait the loop performs is the fixed `delay`. -/
lemma loopSleeps_fixed (r : Nat → Int) (d : ℚ) :
    ∀ (fuel i : Nat) (x : ℚ), x ∈ BaseService.loopSleeps r d fuel i → x = d := by
  intro fuel
  induction fuel with
  | zero => intro i x h; simp [BaseService.loopSleeps] at h
  | succ n ih =>
    intro i x h
    unfold BaseService.loopSleeps at h
    split at h
    · rcases List.mem_cons.mp h with heq | hmem
      · exact heq
      · exact ih (i + 1) x hmem
    · simp at h

/-- C9: the Provider Client loop performs between 1 and 3 POST attempts per
call; every attempt that is followed by another one received a status from
the retry list (all of which are 5xx); an attempt that receives a 4xx
status is the final one (no retry on 4xx); the call returns the last
attempt's response together with the elapsed wall-clock seconds; and every
wait between attempts equals the fixed delay. -/
theorem C9_provider_client_retries :
    (∀ responses : Nat → Int,
       1 ≤ BaseService.loopAttempts responses 3 0 ∧
       BaseService.loopAttempts responses 3 0 ≤ 3) ∧
    (∀ (responses : Nat → Int) (j : Nat),
       j + 1 < BaseService.loopAttempts responses 3 0 →
       BaseService.retryStatuses.contains (responses j) = true ∧
       500 ≤ responses j ∧ responses j ≤ 504) ∧
    (∀ (responses : Nat → Int) (j : Nat),
       j < BaseService.loopAttempts responses 3 0 →
       400 ≤ responses j → responses j < 500 →
       BaseService.loopAttempts responses 3 0 = j + 1) ∧
    (∀ (responses : Nat → Int) (start_time end_time : ℚ),
       BaseService.call_external_api responses 3 start_time end_time =
         some (responses (BaseService.loopAttempts responses 3 0 - 1),
               end_time - start_time)) ∧
    (∀ (responses : Nat → Int) (delay : ℚ) (fuel i : Nat) (x : ℚ),
       x ∈ BaseService.loopSleeps responses delay fuel i → x = delay) := by
  refine ⟨?_, ?_, ?_, ?_, loopSleeps_fixed⟩
  · intro responses
    exact ⟨loopAttempts_pos responses 3 0 (by decide),
      by simpa using loopAttempts_le responses 3 0⟩
  · intro responses j hj
    have h := loopAttempts_retry_mid responses 3 0 j (Nat.zero_le j) hj
    exact ⟨h, retryStatuses_are_5xx _ h⟩
  · intro responses j hj h4 h5
    exact loopAttempts_stop responses 3 0 j (Nat.zero_le j) hj (notRetry_of_4xx _ h4 h5)
  · intro responses s e
    simp [BaseService.call_external_api, BaseService.calculate_tat]

/-- C9, witness: the retry theorem applied to a provider that answers 503
then 404 — two attempts, the 5xx was retried, the 4xx was not. -/
theorem C9_provider_client_retries_witness :
    (1 ≤ BaseService.loopAttempts retryThenClientError 3 0 ∧
     BaseService.loopAttempts retryThenClientError 3 0 ≤ 3) ∧
    (BaseService.retryStatuses.contains (retryThenClientError 0) = true ∧
     500 ≤ retryThenClientError 0 ∧ retryThenClientError 0 ≤ 504) ∧
    BaseService.loopAttempts retryThenClientError 3 0 = 2 ∧
    BaseService.call_external_api retryThenClientError 3 0 5 =
      some (retryThenClientError (BaseService.loopAttempts retryThenClientError 3 0 - 1),
            5 - 0) :=
  ⟨C9_provider_client_retries.1 retryThenClientError,
   C9_provider_client_retries.2.1 retryThenClientError 0 (by decide),
   C9_provider_client_retries.2.2.1 retryThenClientError 1 (by decide) (by decide) (by decide),
   C9_provider_client_retries.2.2.2.1 retryThenClientError 0 5⟩

/-- C10: `check_if_eligible` is total and never raises — its catch-all
`except` turns every internal failure into `False`.  It returns `false` for
a service name outside the ledger-transaction enum, `false` when the user
record cannot be read, and otherwise the truth value of
`credits >= get_service_cost(service_name)`. -/
theorem C10_eligibility_total :
    (∀ (p : ServicePricing) (st : LedgerState) (user_id service_name : String),
       has_value service_name = false →
       check_if_eligible p st user_id service_name = false) ∧
    (∀ (p : ServicePricing) (st : LedgerState) (user_id service_name : String),
       st.getCredits user_id = none →
       check_if_eligible p st user_id service_name = false) ∧
    (∀ (p : ServicePricing) (st : LedgerState) (user_id service_name : String) (c : ℚ),
       has_value service_name = true →
       st.getCredits user_id = some c →
       (check_if_eligible p st user_id service_name = true ↔
         p.get_service_cost service_name ≤ c)) := by
  refine ⟨?_, ?_, ?_⟩
  · intro p st user_id service_name h
    simp [check_if_eligible, h]
  · intro p st user_id service_name h
    unfold check_if_eligible
    split
    · rfl
    · rw [h]
  · intro p st user_id service_name c hv hc
    unfold check_if_eligible
    rw [if_neg (by simp [hv]), hc]
    simp [ge_iff_le]

/-- C10, witness: the three cases at concrete inputs — an unknown service,
a missing user, and a funded user with a known service. -/
theorem C10_eligibility_total_witness :
    check_if_eligible samplePricing richLedger "u1" "NOT_A_SERVICE" = false ∧
    check_if_eligible samplePricing richLedger "ghost" "KYC_AADHAAR" = false ∧
    (check_if_eligible samplePricing richLedger "u1" "KYC_AADHAAR" = true ↔
      samplePricing.get_service_cost "KYC_AADHAAR" ≤ 100) :=
  ⟨C10_eligibility_total.1 samplePricing richLedger "u1" "NOT_A_SERVICE" rfl,
   C10_eligibility_total.2.1 samplePricing richLedger "ghost" "KYC_AADHAAR" rfl,
   C10_eligibility_total.2.2 samplePricing richLedger "u1" "KYC_AADHAAR" 100 rfl rfl⟩

/-- Helper: the handler's incremental social-media sum equals the spec's
weighted-sum formula. -/
lemma social_media_score_eq_formula (result : ScoreFlags) :
    MobileLookupHandler.calculate_social_media_score result =
      specSocialMediaFormula result := by
  rcases result with ⟨w, i, f, t, a, fl, pt⟩
  cases w <;> cases i <;> cases f <;> cases t <;>
    norm_num [MobileLookupHandler.calculate_social_media_score, specSocialMediaFormula]

/-- Helper: the handler's incremental ecommerce sum equals the spec's
weighted-sum formula. -/
lemma ecommerce_score_eq_formula (result : ScoreFlags) :
    MobileLookupHandler.calculate_ecommerce_score result =
      specEcommerceFormula result := by
  rcases result with ⟨w, i, f, t, a, fl, pt⟩
  cases a <;> cases fl <;>
    norm_num [MobileLookupHandler.calculate_ecommerce_score, specEcommerceFormula]

/-- Helper: the handler's payment score equals the spec's formula. -/
lemma payment_score_eq_formula (result : ScoreFlags) :
    MobileLookupHandler.calculate_payment_score result =
      specPaymentFormula result := rfl

/-- C7: on an HTTP 200 response the reported scores are exactly the spec's
formulas (×100, rounded to two decimals, confidence the third of the sum);
on any other HTTP status all four scores are reported as 0.0; and with only
whatsapp and instagram registered the social-media score is 70.0 and the
confidence score 23.33. -/
theorem C7_confidence_score_formulas :
    (∀ result : ScoreFlags,
       MobileLookupHandler.calculate_social_media_score result =
         specSocialMediaFormula result) ∧
    (∀ result : ScoreFlags,
       MobileLookupHandler.calculate_ecommerce_score result =
         specEcommerceFormula result) ∧
    (∀ result : ScoreFlags,
       MobileLookupHandler.calculate_payment_score result =
         specPaymentFormula result) ∧
    (∀ (result : ScoreFlags) (http : ℤ), http = 200 →
       MobileLookupHandler.determine_total_mobile_confidence_score (some result) http =
         specConfidenceScores result) ∧
    (∀ (r : Option ScoreFlags) (http : ℤ), http ≠ 200 →
       MobileLookupHandler.determine_total_mobile_confidence_score r http =
         zeroScores) ∧
    (MobileLookupHandler.determine_total_mobile_confidence_score
        (some flagsWhatsappInstagram) 200).social_media_score = 70 ∧
    (MobileLookupHandler.determine_total_mobile_confidence_score
        (some flagsWhatsappInstagram) 200).ecommerce_score = 0 ∧
    (MobileLookupHandler.determine_total_mobile_confidence_score
        (some flagsWhatsappInstagram) 200).payment_score = 0 ∧
    (MobileLookupHandler.determine_total_mobile_confidence_score
        (some flagsWhatsappInstagram) 200).confidence_score = 2333 / 100 := by
  refine ⟨social_media_score_eq_formula, ecommerce_score_eq_formula,
    payment_score_eq_formula, ?_, ?_, ?_, ?_, ?_, ?_⟩
  · intro result http h
    subst h
    simp [MobileLookupHandler.determine_total_mobile_confidence_score,
      specConfidenceScores, social_media_score_eq_formula,
      ecommerce_score_eq_formula, payment_score_eq_formula]
  · intro r http h
    simp [MobileLookupHandler.determine_total_mobile_confidence_score, h, zeroScores]
  · norm_num [MobileLookupHandler.determine_total_mobile_confidence_score,
      MobileLookupHandler.calculate_social_media_score,
      MobileLookupHandler.calculate_ecommerce_score,
      MobileLookupHandler.calculate_payment_score,
      flagsWhatsappInstagram, round2, pythonRound, Int.fract]
  · norm_num [MobileLookupHandler.determine_total_mobile_confidence_score,
      MobileLookupHandler.calculate_social_media_score,
      MobileLookupHandler.calculate_ecommerce_score,
      MobileLookupHandler.calculate_payment_score,
      flagsWhatsappInstagram, round2, pythonRound, Int.fract]
  · norm_num [MobileLookupHandler.determine_total_mobile_confidence_score,
      MobileLookupHandler.calculate_social_media_score,
      MobileLookupHandler.calculate_ecommerce_score,
      MobileLookupHandler.calculate_payment_score,
      flagsWhatsappInstagram, round2, pythonRound, Int.fract]
  · norm_num [MobileLookupHandler.determine_total_mobile_confidence_score,
      MobileLookupHandler.calculate_social_media_score,
      MobileLookupHandler.calculate_ecommerce_score,
      MobileLookupHandler.calculate_payment_score,
      flagsWhatsappInstagram, round2, pythonRound, Int.fract]

/-- C7, witness: the formula equations applied at the concrete
whatsapp-and-instagram flags, and the non-200 branch at 503. -/
theorem C7_confidence_score_formulas_witness :
    MobileLookupHandler.determine_total_mobile_confidence_score
        (some flagsWhatsappInstagram) 200 = specConfidenceScores flagsWhatsappInstagram ∧
    MobileLookupHandler.determine_total_mobile_confidence_score
        (some flagsWhatsappInstagram) 503 = zeroScores :=
  ⟨C7_confidence_score_formulas.2.2.2.1 flagsWhatsappInstagram 200 rfl,
   C7_confidence_score_formulas.2.2.2.2.1 (some flagsWhatsappInstagram) 503 (by decide)⟩

/-- Helper: replacing a present key's value in the credits list makes the
lookup return the new value. -/
lemma find?_set_self (l : List (String × ℚ)) (uid : String) (v : ℚ) :
    (l.find? (fun p => p.1 = uid)).isSome = true →
    ((l.map (fun p => if p.1 = uid then (p.1, v) else p)).find? (fun p => p.1 = uid))
      = some (uid, v) := by
  induction l with
  | nil => intro h; simp [List.find?] at h
  | cons p t ih =>
    intro h
    simp only [List.map_cons]
    by_cases hp : p.1 = uid
    · rw [if_pos hp, List.find?_cons_of_pos _ (by simp [hp]), hp]
    · rw [if_neg hp, List.find?_cons_of_neg _ (by simp [hp])]
      exact ih (by rwa [List.find?_cons_of_neg _ (by simp [hp])] at h)

/-- Helper: replacing one key's value leaves every other key's lookup
unchanged. -/
lemma find?_set_other (l : List (String × ℚ)) (uid uid2 : String) (v : ℚ)
    (h : uid2 ≠ uid) :
    ((l.map (fun p => if p.1 = uid then (p.1, v) else p)).find? (fun p => p.1 = uid2))
      = l.find? (fun p => p.1 = uid2) := by
  induction l with
  | nil => simp
  | cons p t ih =>
    simp only [List.map_cons]
    by_cases hp : p.1 = uid
    · have hne : ¬ p.1 = uid2 := by rw [hp]; exact fun hh => h hh.symm
      rw [if_pos hp, List.find?_cons_of_neg _ (by simp [hp]; exact fun hh => h hh.symm),
        List.find?_cons_of_neg _ (by simp [hne]), ih]
    · by_cases hq : p.1 = uid2
      · rw [if_neg hp, List.find?_cons_of_pos _ (by simp [hq]),
          List.find?_cons_of_pos _ (by simp [hq])]
      · rw [if_neg hp, List.find?_cons_of_neg _ (by simp [hq]),
          List.find?_cons_of_neg _ (by simp [hq]), ih]

/-- Helper: a successful credits read means the user's entry is present. -/
lemma getCredits_isSome {st : LedgerState} {uid : String} {c : ℚ}
    (h : st.getCredits uid = some c) :
    (st.credits.find? (fun p => p.1 = uid)).isSome = true := by
  unfold LedgerState.getCredits at h
  cases hf : st.credits.find? (fun p => p.1 = uid) with
  | none => rw [hf] at h; simp at h
  | some p => simp [hf]

/-- Helper: one successful ledger insert keeps the balance-consistency
invariant. -/
lemma insert_preserves_invariant {st : LedgerState} {uid ty desc : String} {am : ℚ}
    {st2 : LedgerState} {txn : UserLedgerTransaction}
    (hok : insert_ledger_txn_for_user st uid ty am desc = .ok (st2, txn))
    (hinv : LedgerInvariant st) : LedgerInvariant st2 := by
  unfold insert_ledger_txn_for_user at hok
  cases hc : st.getCredits uid with
  | none => rw [hc] at hok; exact absurd hok (by simp)
  | some c =>
    rw [hc] at hok
    simp only [Except.ok.injEq, Prod.mk.injEq] at hok
    obtain ⟨hst2, htxn⟩ := hok
    subst hst2
    intro uid2 t ht
    by_cases hu : uid2 = uid
    · subst hu
      unfold LedgerState.latestTxnFor LedgerState.setCredits at ht
      simp only at ht
      rw [List.find?_cons_of_pos _ (by simp)] at ht
      obtain rfl : _ = t := by injection ht
      unfold LedgerState.getCredits LedgerState.setCredits
      simp only
      rw [find?_set_self _ _ _ (getCredits_isSome hc)]
      rfl
    · unfold LedgerState.latestTxnFor LedgerState.setCredits at ht
      simp only at ht
      rw [List.find?_cons_of_neg _ (by simp; exact fun hh => hu hh.symm)] at ht
      have hold := hinv uid2 t ht
      unfold LedgerState.getCredits LedgerState.setCredits
      unfold LedgerState.getCredits at hold
      simp only at hold ⊢
      rw [find?_set_other _ _ _ _ hu]
      exact hold

/-- Helper: running a list of ledger operations keeps the invariant. -/
lemma applyOps_preserves_invariant :
    ∀ (ops : List LedgerOp) (st st2 : LedgerState),
    LedgerInvariant st → applyLedgerOps st ops = .ok st2 → LedgerInvariant st2 := by
  intro ops
  induction ops with
  | nil =>
    intro st st2 hinv h
    simp only [applyLedgerOps, Except.ok.injEq] at h
    subst h
    exact hinv
  | cons op ops ih =>
    intro st st2 hinv h
    unfold applyLedgerOps at h
    cases hins : insert_ledger_txn_for_user st op.user_id op.type op.amount op.description with
    | error e => rw [hins] at h; exact absurd h (by simp)
    | ok pr =>
      obtain ⟨st3, txn⟩ := pr
      rw [hins] at h
      exact ih st3 st2 (insert_preserves_invariant hins hinv) h

/-- C5: every ledger insert stores `current credits + signed amount` on the
new transaction's `balance` and then writes that same balance onto the
user's `credits`; consequently, after any successful sequence of sequential
ledger operations from an invariant-satisfying state, the newest ledger
transaction's balance (per user) equals that user's credits. -/
theorem C5_ledger_balance_invariant :
    (∀ (st : LedgerState) (user_id type description : String) (amount c : ℚ),
       st.getCredits user_id = some c →
       ∃ (st2 : LedgerState) (txn : UserLedgerTransaction),
         insert_ledger_txn_for_user st user_id type amount description = .ok (st2, txn) ∧
         txn.balance = c + amount ∧
         st2.getCredits user_id = some txn.balance ∧
         st2.latestTxnFor user_id = some txn) ∧
    (∀ (ops : List LedgerOp) (st st2 : LedgerState),
       LedgerInvariant st → applyLedgerOps st ops = .ok st2 → LedgerInvariant st2) := by
  refine ⟨?_, applyOps_preserves_invariant⟩
  intro st uid ty desc am c h
  unfold insert_ledger_txn_for_user
  rw [h]
  refine ⟨_, _, rfl, rfl, ?_, ?_⟩
  · unfold LedgerState.getCredits LedgerState.setCredits
    simp only
    rw [find?_set_self _ _ _ (getCredits_isSome h)]
    rfl
  · unfold LedgerState.latestTxnFor LedgerState.setCredits
    simp only
    rw [List.find?_cons_of_pos _ (by simp)]

/-- C5, witness: a concrete credit purchase for the funded user, and the
invariant after applying it from the fresh ledger. -/
theorem C5_ledger_balance_invariant_witness :
    (∃ (st2 : LedgerState) (txn : UserLedgerTransaction),
       insert_ledger_txn_for_user richLedger "u1" "CREDIT" 50 "Credits Purchased"
         = .ok (st2, txn) ∧
       txn.balance = 100 + 50 ∧
       st2.getCredits "u1" = some txn.balance ∧
       st2.latestTxnFor "u1" = some txn) ∧
    LedgerInvariant creditedLedger :=
  ⟨C5_ledger_balance_invariant.1 richLedger "u1" "CREDIT" "Credits Purchased" 50 100 rfl,
   C5_ledger_balance_invariant.2 [purchaseOp] richLedger creditedLedger
     (by intro uid t ht; simp [richLedger, LedgerState.latestTxnFor, List.find?] at ht)
     rfl⟩

/-- C1: the claim says a deduction of exactly the type's price is made via
the Ledger Handler iff the final status is billable, once per request,
cache hit or miss.  On the code, every handler invokes `deduct_credits`
with three positional arguments (`user_id`, service name, description)
against its two-parameter definition, so on every billable outcome —
whether served from cache or from a live provider call — the handler
raises `TypeError` and no deduction is made.  The two-argument call shape
itself succeeds, isolating the extra description argument as the cause. -/
theorem C1_billing_call_arity :
    getKycDetails cfgAadhaar samplePricing hitState (.ok (200, bodyFound)) aadhaarDetails "u1"
      = .error .typeError ∧
    getKycDetails cfgAadhaar samplePricing missState (.ok (200, bodyFound)) aadhaarDetails "u1"
      = .error .typeError ∧
    deduct_credits samplePricing richLedger ["u1", "KYC_AADHAAR", "FOUND|999941057058"]
      = .error .typeError ∧
    (deduct_credits samplePricing richLedger ["u1", "KYC_AADHAAR"]).isOk = true :=
  ⟨rfl, rfl, rfl, rfl⟩

/-- C2: the claim says every document type's handler raises the
insufficient-credits signal (mapped to HTTP 402) when balance < price.  On
the code, the Mobile Lookup handler's eligibility check reads
`ServicePricing.KYC_MOBILE_LOOKUP_COST` — an attribute that does not exist
(the class defines `MOBILE_LOOKUP_COST`) — so a zero-credit user gets
`AttributeError`, which the API layer maps to HTTP 400, not 402.  The
Aadhaar-style handlers do raise the distinct signal before any provider
call and the router maps it to 402. -/
theorem C2_insufficient_credits_signal :
    getKycDetails cfgMobileLookup samplePricing poorState (.ok (200, bodyFound)) mobileDetails "u2"
      = .error .attributeError ∧
    routeHttpStatus (getKycDetails cfgMobileLookup samplePricing poorState
      (.ok (200, bodyFound)) mobileDetails "u2") = 400 ∧
    ServicePricing.attr samplePricing "KYC_MOBILE_LOOKUP_COST" = none ∧
    ServicePricing.attr samplePricing "MOBILE_LOOKUP_COST" = some 10 ∧
    getKycDetails cfgAadhaar samplePricing poorState (.ok (200, bodyFound)) aadhaarDetails "u2"
      = .error .insufficientCredits ∧
    routeHttpStatus (getKycDetails cfgAadhaar samplePricing poorState
      (.ok (200, bodyFound)) aadhaarDetails "u2") = 402 :=
  ⟨rfl, rfl, rfl, rfl, rfl, rfl⟩

/-- C3, counterexample: with a prior FOUND Aadhaar transaction in the
store, the handler's cache lookup hits, yet the claim's "the handler
returns the cached provider_response with is_cached=true" fails — the
request ends in `TypeError` (from the billing call) instead of a return.
The provider outcome is an error here, so no provider call could have
produced this result either. -/
theorem C3_counterexample :
    handlerCacheLookup cfgAadhaar hitState.kycdb aadhaarDetails = some cachedAadhaarFound ∧
    getKycDetails cfgAadhaar samplePricing hitState (.error "network unreachable")
      aadhaarDetails "u1" = .error .typeError :=
  ⟨rfl, rfl⟩

/-- C3, amended: the repository lookup returns a prior transaction only
when the api name, the type's identifier field and the billable-status
filter all match; for GSTIN there is no lookup branch, so no prior
transaction is ever returned; no billable-status set contains ERROR, so a
prior ERROR transaction is never served.  On a cache hit the handler's
result does not depend on the provider (the Provider Client is not
invoked) and the transaction is updated with `is_cached = true`, provider
INTERNAL, and the cached response and status — but because every served
status is billable, the billing call's arity `TypeError` aborts the
request before the cached `provider_response` is returned. -/
theorem C3_amended_cache_lookup :
    (∀ (api_name identifier : String) (billable : List String) (db : List KYCTxn) (t : KYCTxn),
       get_kyc_validation_transaction api_name identifier billable db = some t →
       t.api_name = api_name ∧ billable.contains t.status = true ∧
       identifierMatches api_name identifier t) ∧
    (∀ (identifier : String) (billable : List String) (db : List KYCTxn),
       get_kyc_validation_transaction "KYB_GSTIN" identifier billable db = none) ∧
    (∀ (name : String) (billable : List String),
       kycServiceBillableStatusAttr name = some billable →
       billable.contains "ERROR" = false) ∧
    (∀ (cfg : DocCfg) (p : ServicePricing) (st : PipelineState)
       (po po2 : Except String (Int × ProviderResp)) (details : TxnDetails)
       (user_id : String) (cached : KYCTxn),
       handlerCacheLookup cfg st.kycdb details = some cached →
       getKycDetails cfg p st po details user_id = getKycDetails cfg p st po2 details user_id) ∧
    (∀ (placeholder cached : KYCTxn),
       (updateFromCache placeholder cached).is_cached = true ∧
       (updateFromCache placeholder cached).provider_name = "INTERNAL" ∧
       (updateFromCache placeholder cached).kyc_provider_response = cached.kyc_provider_response ∧
       (updateFromCache placeholder cached).status = cached.status) ∧
    (∀ (cfg : DocCfg) (p : ServicePricing) (st : PipelineState)
       (po : Except String (Int × ProviderResp)) (details : TxnDetails)
       (user_id : String) (cached : KYCTxn) (billable : List String),
       handlerCacheLookup cfg st.kycdb details = some cached →
       kycServiceBillableStatusAttr cfg.billingStatusAttr = some billable →
       billable.contains cached.status = true →
       (getKycDetails cfg p st po details user_id).isOk = false) := by
  refine ⟨?_, ?_, ?_, ?_, ?_, ?_⟩
  · intro api_name identifier billable db t h
    unfold get_kyc_validation_transaction at h
    split_ifs at h with h1 h2 h3 h4 h5 h6 h7 h8
    · subst h1
      have hp := List.find?_some h
      simp only [Bool.and_eq_true, beq_iff_eq] at hp
      exact ⟨hp.1.1, hp.2, by simp [identifierMatches, hp.1.2]⟩
    · subst h2
      have hp := List.find?_some h
      simp only [Bool.and_eq_true, beq_iff_eq] at hp
      exact ⟨hp.1.1, hp.2, by simp [identifierMatches, hp.1.2]⟩
    · subst h3
      have hp := List.find?_some h
      simp only [Bool.and_eq_true, beq_iff_eq] at hp
      exact ⟨hp.1.1, hp.2, by simp [identifierMatches, hp.1.2]⟩
    · subst h4
      have hp := List.find?_some h
      simp only [Bool.and_eq_true, beq_iff_eq] at hp
      exact ⟨hp.1.1, hp.2, by simp [identifierMatches, hp.1.2]⟩
    · subst h5
      have hp := List.find?_some h
      simp only [Bool.and_eq_true, beq_iff_eq] at hp
      exact ⟨hp.1.1, hp.2, by simp [identifierMatches, hp.1.2]⟩
    · subst h6
      have hp := List.find?_some h
      simp only [Bool.and_eq_true, beq_iff_eq] at hp
      exact ⟨hp.1.1, hp.2, by simp [identifierMatches, hp.1.2]⟩
    · subst h7
      have hp := List.find?_some h
      simp only [Bool.and_eq_true, beq_iff_eq] at hp
      exact ⟨hp.1.1, hp.2, by simp [identifierMatches, hp.1.2]⟩
    · subst h8
      have hp := List.find?_some h
      simp only [Bool.and_eq_true, Bool.or_eq_true, beq_iff_eq] at hp
      refine ⟨hp.1.1, hp.2, ?_⟩
      simp only [identifierMatches]
      norm_num
      tauto
  · intro identifier billable db
    rfl
  · intro name billable h
    unfold kycServiceBillableStatusAttr at h
    split_ifs at h
    all_goals first
      | exact Option.noConfusion h
      | (injection h with h2; subst h2; rfl)
  · intro cfg p st po po2 details user_id cached hcache
    unfold getKycDetails
    cases hcred : st.ledger.getCredits user_id with
    | none => rfl
    | some c =>
      cases hattr : ServicePricing.attr p cfg.costAttr with
      | none => rfl
      | some cost =>
        rw [hcache]
  · intro placeholder cached
    exact ⟨rfl, rfl, rfl, rfl⟩
  · intro cfg p st po details user_id cached billable hcache hattr hbil
    unfold getKycDetails
    cases hcred : st.ledger.getCredits user_id with
    | none => rfl
    | some c =>
      cases hcost : ServicePricing.attr p cfg.costAttr with
      | none => rfl
      | some cost =>
        have hmem : cached.status ∈ billable := by simpa using hbil
        by_cases hlt : c < cost
        · simp [hlt, Except.isOk, Except.toBool]
        · simp [hlt, hcache, billAndReturn, hattr, updateFromCache, hmem,
            deduct_credits, Except.isOk, Except.toBool]

/-- C3, witness for the amended theorem: the lookup-restriction, the
provider-independence of a hit, and the billable-hit abort, all at the
concrete FOUND Aadhaar cache entry. -/
theorem C3_amended_cache_lookup_witness :
    (cachedAadhaarFound.api_name = "KYC_AADHAAR" ∧
     (["FOUND", "NOT_FOUND"] : List String).contains cachedAadhaarFound.status = true ∧
     identifierMatches "KYC_AADHAAR" "999941057058" cachedAadhaarFound) ∧
    getKycDetails cfgAadhaar samplePricing hitState (.ok (200, bodyFound)) aadhaarDetails "u1"
      = getKycDetails cfgAadhaar samplePricing hitState (.error "x") aadhaarDetails "u1" ∧
    (getKycDetails cfgAadhaar samplePricing hitState (.ok (200, bodyFound))
      aadhaarDetails "u1").isOk = false :=
  ⟨C3_amended_cache_lookup.1 "KYC_AADHAAR" "999941057058" ["FOUND", "NOT_FOUND"]
      hitState.kycdb cachedAadhaarFound rfl,
   C3_amended_cache_lookup.2.2.2.1 cfgAadhaar samplePricing hitState
      (.ok (200, bodyFound)) (.error "x") aadhaarDetails "u1" cachedAadhaarFound rfl,
   C3_amended_cache_lookup.2.2.2.2.2 cfgAadhaar samplePricing hitState
      (.ok (200, bodyFound)) aadhaarDetails "u1" cachedAadhaarFound
      ["FOUND", "NOT_FOUND"] rfl rfl rfl⟩

/-- C6: a provider-call or parse exception propagates out of the handler
unchanged while the placeholder keeps its default status ERROR and
http_status_code 500; whereas a provider HTTP error response (400, 429,
503) is not an exception — the transaction is updated with that HTTP code
and the corresponding non-FOUND status (BAD_REQUEST / ERROR /
SOURCE_DOWN for the cited Aadhaar handler). -/
theorem C6_transport_vs_provider_error :
    (∀ (cfg : DocCfg) (user_id : String),
       (mkPlaceholder cfg user_id).status = "ERROR" ∧
       (mkPlaceholder cfg user_id).http_status_code = 500) ∧
    (∀ (cfg : DocCfg) (placeholder : KYCTxn) (e : String) (details : TxnDetails),
       getFromApi cfg placeholder (.error e) details = .error (.exn e)) ∧
    (∀ (p : ServicePricing) (st : PipelineState) (details : TxnDetails)
       (user_id e : String) (c cost : ℚ),
       st.ledger.getCredits user_id = some c →
       ServicePricing.attr p cfgAadhaar.costAttr = some cost →
       ¬ c < cost →
       handlerCacheLookup cfgAadhaar st.kycdb details = none →
       getKycDetails cfgAadhaar p st (.error e) details user_id = .error (.exn e)) ∧
    (∀ (placeholder : KYCTxn) (body : ProviderResp) (details : TxnDetails) (h : ℤ),
       h = 400 ∨ h = 429 ∨ h = 503 →
       getFromApi cfgAadhaar placeholder (.ok (h, body)) details =
         .ok (updateFromApi cfgAadhaar placeholder h body details, body) ∧
       (updateFromApi cfgAadhaar placeholder h body details).http_status_code = h ∧
       (updateFromApi cfgAadhaar placeholder h body details).status ≠ "FOUND") ∧
    (∀ c : ℤ, AadhaarHandler.determine_status 400 c = "BAD_REQUEST" ∧
       AadhaarHandler.determine_status 429 c = "ERROR" ∧
       AadhaarHandler.determine_status 503 c = "SOURCE_DOWN") := by
  refine ⟨fun cfg uid => ⟨rfl, rfl⟩, fun cfg pl e d => rfl, ?_, ?_, fun c => ⟨rfl, rfl, rfl⟩⟩
  · intro p st details user_id e c cost hcred hcost hlt hcache
    unfold getKycDetails
    rw [hcred]
    simp only [hcost]
    rw [if_neg hlt, hcache]
    rfl
  · intro placeholder body details h h3
    rcases h3 with rfl | rfl | rfl <;>
      exact ⟨rfl, rfl, by simp [updateFromApi, cfgAadhaar, AadhaarHandler.determine_status]⟩

/-- C6, witness: the placeholder defaults, a concrete propagated network
exception (including through the whole handler on a cache miss), and a 503
response persisted as SOURCE_DOWN.  -/
theorem C6_transport_vs_provider_error_witness :
    ((mkPlaceholder cfgAadhaar "u1").status = "ERROR" ∧
     (mkPlaceholder cfgAadhaar "u1").http_status_code = 500) ∧
    getFromApi cfgAadhaar (mkPlaceholder cfgAadhaar "u1") (.error "connection reset")
      aadhaarDetails = .error (.exn "connection reset") ∧
    getKycDetails cfgAadhaar samplePricing missState (.error "connection reset")
      aadhaarDetails "u1" = .error (.exn "connection reset") ∧
    (getFromApi cfgAadhaar (mkPlaceholder cfgAadhaar "u1") (.ok (503, bodyFound))
       aadhaarDetails =
       .ok (updateFromApi cfgAadhaar (mkPlaceholder cfgAadhaar "u1") 503 bodyFound
         aadhaarDetails, bodyFound) ∧
     (updateFromApi cfgAadhaar (mkPlaceholder cfgAadhaar "u1") 503 bodyFound
       aadhaarDetails).http_status_code = 503 ∧
     (updateFromApi cfgAadhaar (mkPlaceholder cfgAadhaar "u1") 503 bodyFound
       aadhaarDetails).status ≠ "FOUND") ∧
    (AadhaarHandler.determine_status 400 0 = "BAD_REQUEST" ∧
     AadhaarHandler.determine_status 429 0 = "ERROR" ∧
     AadhaarHandler.determine_status 503 0 = "SOURCE_DOWN") :=
  ⟨C6_transport_vs_provider_error.1 cfgAadhaar "u1",
   C6_transport_vs_provider_error.2.1 cfgAadhaar (mkPlaceholder cfgAadhaar "u1")
     "connection reset" aadhaarDetails,
   C6_transport_vs_provider_error.2.2.1 samplePricing missState aadhaarDetails "u1"
     "connection reset" 100 2 rfl rfl (by decide) rfl,
   C6_transport_vs_provider_error.2.2.2.1 (mkPlaceholder cfgAadhaar "u1") bodyFound
     aadhaarDetails 503 (Or.inr (Or.inr rfl)),
   C6_transport_vs_provider_error.2.2.2.2 0⟩

end Odin
